import Mathlib

/-!
Verification development for the billing action generation engine of the
Dimely engineering-challenge repository.

The TypeScript sources are embedded shallowly:

* JS `number` values holding money in dollars are modelled as `Rat`
  (exact arithmetic; the sources never hit float-precision issues in the
  ranges the claims speak about), amounts in minor units (cents) produced
  by `Math.round` are `Int`.
* JS `Date` values are modelled as proleptic-Gregorian civil dates
  (`CivilDate`); the implicit wall clock (`new Date()`) is an explicit
  `now : CivilDate` parameter.  A date *string* field is a `DateField`:
  `missing` (absent / empty, i.e. falsy in JS), `invalid` (non-empty but
  unparsable, `new Date(...)` gives `NaN`), or `valid d`.
* The billing-provider client (`RecurlyClient`) is modelled by an oracle
  `Oracle : Nat → Bool` deciding, per client call (calls are numbered by a
  counter threaded through each generator), whether the call succeeds or
  throws.  Successful responses echo the request with a synthetic uuid;
  the thrown error is the fixed string `clientErrorMsg` (no claim inspects
  the message text of a provider failure).
* The `details : Record<string, any>` bag of a billing action is
  abbreviated to an `ActionDetails` inductive carrying exactly the fields
  some claim inspects (the error string and opportunity id of `error`
  actions, response echoes, amounts); payloads that no claim reads are
  dropped from the corresponding constructor.
-/

namespace Dimely

/-! ## Calendar arithmetic (model of JS `Date` / date-fns) -/

/-- Gregorian leap-year rule, as written in
`ProrationEngine.calculateAnnualProration`. -/
def isLeapYear (y : Int) : Bool :=
  (y % 4 == 0 && y % 100 != 0) || y % 400 == 0

/-- Number of days of month `m` (1–12) of year `y`; model of
`new Date(year, month + 1, 0).getDate()`. -/
def daysInMonth (y : Int) (m : Nat) : Nat :=
  if m = 2 then (if isLeapYear y then 29 else 28)
  else if m = 4 ∨ m = 6 ∨ m = 9 ∨ m = 11 then 30
  else 31

/-- A civil (proleptic Gregorian) calendar date; model of a JS `Date`
at midnight.  `month` is 1-based. -/
structure CivilDate where
  year : Int
  month : Nat
  day : Nat
deriving DecidableEq, Repr

/-- Day number of a civil date (days since 1970-01-01, Howard Hinnant's
`days_from_civil` algorithm); model of `Date.getTime()` divided by
86 400 000. -/
def daysFromCivil (y : Int) (m : Nat) (d : Nat) : Int :=
  let y2 : Int := if m ≤ 2 then y - 1 else y
  let era : Int := (if 0 ≤ y2 then y2 else y2 - 399) / 400
  let yoe : Int := y2 - era * 400
  let mp : Int := if 2 < m then (m : Int) - 3 else (m : Int) + 9
  let doy : Int := (153 * mp + 2) / 5 + (d : Int) - 1
  let doe : Int := yoe * 365 + yoe / 4 - yoe / 100 + doy
  era * 146097 + doe - 719468

/-- Day number of a date (JS `Date` ordering and differences reduce to
this number for midnight dates). -/
def CivilDate.num (d : CivilDate) : Int :=
  daysFromCivil d.year d.month d.day

/-- date-fns `differenceInDays(a, b)`: for midnight dates this is the
exact difference of day numbers. -/
def differenceInDays (a b : CivilDate) : Int :=
  a.num - b.num

/-- A date-typed input field of the opportunity record.  `missing` is an
absent or empty string (falsy in JS), `invalid` a non-empty string that
`new Date(...)` cannot parse (`getTime()` is `NaN`), `valid d` a string
parsing to the date `d`. -/
inductive DateField where
  | missing
  | invalid
  | valid (d : CivilDate)
deriving DecidableEq, Repr

/-- Result of `new Date(field)` followed by the `isNaN(getTime())`
check: `some d` iff the string parses. -/
def DateField.parse : DateField → Option CivilDate
  | .valid d => some d
  | _ => none

/-- JS falsiness of the raw string field (`!opportunity.contract_start_date`). -/
def DateField.isFalsy : DateField → Bool
  | .missing => true
  | _ => false

/-! ## Data model (src/types/index.ts) -/

/-- Model of `item_classification` values of a line item. -/
inductive ItemClass where
  | subscription_consumption
  | non_subscription_consumption
  | one_time_service
deriving DecidableEq, Repr

/-- The string the source stores for an `ItemClass` value. -/
def itemClassStr : ItemClass → String
  | .subscription_consumption => "subscription_consumption"
  | .non_subscription_consumption => "non_subscription_consumption"
  | .one_time_service => "one_time_service"

/-- A line item of an opportunity (`LineItem` in src/types/index.ts).
Optional JS boolean flags are plain `Bool` (absent ≡ `false`: all uses
are truthiness tests).  String fields not read by any modelled code are
omitted. -/
structure LineItem where
  product_code : String
  product_name : String
  quantity : Rat
  unit_price : Rat
  total_price : Rat
  billing_period : String
  item_classification : Option ItemClass
  previous_price : Option Rat
  price_change_reason : Option String
  proration_needed : Bool
  affects_base_subscription : Bool
  immediate_invoice : Bool
  replaces_self_service : Bool
deriving DecidableEq, Repr

/-- Model of `billing_scenarios` block of `ProrationDetails`; the source only ever
tests the two fields for truthiness, so the optional strings are `Bool`. -/
structure BillingScenarios where
  immediate_invoice : Bool
  subscription_update : Bool
deriving DecidableEq, Repr

/-- Model of `ProrationDetails` (fields the proration engine reads).
`upsell_start_date = none` covers both an absent string (the truthiness
guard fails) and an unparsable one (`NaN > now` is false): either way the
immediate-invoice adjustment is skipped, which is what the source does. -/
structure ProrationDetails where
  upsell_start_date : Option CivilDate
  billing_scenarios : Option BillingScenarios
deriving DecidableEq, Repr

/-- Model of `billing_transition` block of a conversion opportunity. -/
structure BillingTransition where
  credit_amount_due : Option Rat
  credit_calculation : Option String
deriving DecidableEq, Repr

/-- Model of `outstanding_invoices` block of an insertion-order opportunity. -/
structure OutstandingInvoices where
  has_outstanding : Bool
  invoice_ids : List String
  total_outstanding : Option Rat
deriving DecidableEq, Repr

/-- An opportunity record (`Opportunity` in src/types/index.ts).  The
`type` field is called `otype` here; it is a `String` because the
dispatcher and the validator both handle unrecognized values at runtime.
`contact_email` and `contact_company` stand for
`contact_info.email` and `contact_info.billing_address.company`, the only
parts of the contact block the engines read. -/
structure Opportunity where
  id : String
  otype : String
  account_name : String
  account_id : String
  amount : Rat
  contract_start_date : DateField
  contract_end_date : DateField
  billing_frequency : String
  payment_terms : String
  line_items : List LineItem
  contact_email : String
  contact_company : String
  proration_details : Option ProrationDetails
  billing_transition : Option BillingTransition
  outstanding_invoices : Option OutstandingInvoices
deriving DecidableEq, Repr

/-- An existing subscription of the billing-state snapshot
(`RecurlySubscription`; only the fields the engines read). -/
structure RecurlySubscription where
  uuid : String
  plan_code : String
  state : String
  unit_amount_in_cents : Rat
  quantity : Rat
deriving DecidableEq, Repr

/-- The existing billing state (`RecurlyState`); account, invoices and
transactions are never read by the modelled engines and are omitted. -/
structure RecurlyState where
  subscriptions : List RecurlySubscription
deriving DecidableEq, Repr

/-! ## Risk model -/

/-- Model of `RiskLevel` in src/engines/validation/RiskCalculator.ts. -/
inductive RiskLevel where
  | low
  | medium
  | high
deriving DecidableEq, Repr

/-- Numeric rank of a risk level, for stating monotonicity
(low < medium < high). -/
def riskRank : RiskLevel → Nat
  | .low => 0
  | .medium => 1
  | .high => 2

/-- Model of `RiskCalculator.calculateRiskLevel`: amount tier of a dollar amount
(thresholds `LOW = 1000`, `MEDIUM = 5000`). -/
def calculateRiskLevel (amount : Rat) : RiskLevel :=
  if amount ≤ 1000 then .low
  else if amount ≤ 5000 then .medium
  else .high

/-- A sub-score of the opportunity risk assessment: points plus
human-readable factor strings. -/
structure SubScore where
  score : Nat
  factors : List String
deriving DecidableEq, Repr

/-- Model of `RiskCalculator.calculateAmountRisk`. -/
def calculateAmountRisk (amount : Rat) : SubScore :=
  if 100000 < amount then ⟨10, ["Very high value opportunity (>$100k)"]⟩
  else if 50000 < amount then ⟨7, ["High value opportunity (>$50k)"]⟩
  else if 10000 < amount then ⟨4, ["Medium value opportunity (>$10k)"]⟩
  else if 1000 < amount then ⟨2, ["Low value opportunity (>$1k)"]⟩
  else ⟨0, []⟩

/-- Model of `RiskCalculator.calculateComplexityRisk`: line-item count band, plus
3 points if any one-time item is present, plus 4 points if any
proration-needed item is present. -/
def calculateComplexityRisk (lineItems : List LineItem) : SubScore :=
  let base : SubScore :=
    if 10 < lineItems.length then ⟨8, ["Very complex order (>10 line items)"]⟩
    else if 5 < lineItems.length then ⟨5, ["Complex order (>5 line items)"]⟩
    else if 2 < lineItems.length then ⟨2, ["Multiple line items"]⟩
    else ⟨0, []⟩
  let withOneTime : SubScore :=
    if 0 < (lineItems.filter (fun i => i.billing_period == "one_time")).length then
      ⟨base.score + 3, base.factors ++ ["Contains one-time charges"]⟩
    else base
  if 0 < (lineItems.filter (fun i => i.proration_needed)).length then
    ⟨withOneTime.score + 4, withOneTime.factors ++ ["Contains proration calculations"]⟩
  else withOneTime

/-- Model of `RiskCalculator.calculateDurationRisk`.  With parsable dates the JS
`Math.ceil((end − start) / 86 400 000)` is the exact day-number
difference; if either date is `NaN` every band comparison is false and
the score is 0, which the `| _, _` branch reproduces. -/
def calculateDurationRisk (startDate endDate : DateField) : SubScore :=
  match startDate.parse, endDate.parse with
  | some s, some e =>
    let durationInDays : Int := e.num - s.num
    if 365 < durationInDays then ⟨6, ["Long-term contract (>1 year)"]⟩
    else if 90 < durationInDays then ⟨3, ["Medium-term contract (>3 months)"]⟩
    else if durationInDays < 30 then ⟨2, ["Short-term contract (<1 month)"]⟩
    else ⟨0, []⟩
  | _, _ => ⟨0, []⟩

/-- Substring test; model of JS `String.prototype.includes`. -/
def strContains (s pat : String) : Bool :=
  if pat = "" then true else 1 < (s.splitOn pat).length

/-- Model of `RiskCalculator.calculatePaymentTermsRisk`. -/
def calculatePaymentTermsRisk (paymentTerms : String) : SubScore :=
  if strContains paymentTerms "net_90" || strContains paymentTerms "net_120" then
    ⟨5, ["Extended payment terms"]⟩
  else if strContains paymentTerms "net_60" then ⟨3, ["Long payment terms"]⟩
  else if strContains paymentTerms "net_30" then ⟨1, ["Standard payment terms"]⟩
  else if strContains paymentTerms "due_on_receipt" then ⟨0, ["Immediate payment"]⟩
  else ⟨0, []⟩

/-- Model of `RiskCalculator.determineRiskLevel`. -/
def determineRiskLevel (score : Nat) : RiskLevel :=
  if score ≤ 10 then .low
  else if score ≤ 20 then .medium
  else .high

/-- Model of `RiskCalculationResult`. -/
structure RiskCalculationResult where
  riskLevel : RiskLevel
  factors : List String
  score : Nat
deriving DecidableEq, Repr

/-- Model of `RiskCalculator.calculateOpportunityRisk`: sum of the four
sub-scores, factors concatenated in the same order. -/
def calculateOpportunityRisk (opp : Opportunity) : RiskCalculationResult :=
  let amountRisk := calculateAmountRisk opp.amount
  let complexityRisk := calculateComplexityRisk opp.line_items
  let durationRisk := calculateDurationRisk opp.contract_start_date opp.contract_end_date
  let paymentRisk := calculatePaymentTermsRisk opp.payment_terms
  let score := amountRisk.score + complexityRisk.score + durationRisk.score + paymentRisk.score
  { riskLevel := determineRiskLevel score
    factors := amountRisk.factors ++ complexityRisk.factors
      ++ durationRisk.factors ++ paymentRisk.factors
    score := score }

/-! ## Proration engine (src/engines/proration/ProrationEngine.ts) -/

/-- Model of `ProrationResult`. -/
structure ProrationResult where
  amountInCents : Int
  calculationMethod : String
  daysCalculated : Int
  billingFrequency : String
  notes : List String
deriving DecidableEq, Repr

/-- Model of `MINIMUM_CHARGE`: $1.00 in minor units. -/
def MINIMUM_CHARGE : Int := 100

/-- JS `Math.round` (half toward +∞) on an exact rational. -/
def jsRound (q : Rat) : Int :=
  (q + 1/2).floor

/-- Outcome of `ProrationEngine.validateDates`. -/
inductive DateValidation where
  | bad (error : String)
  | ok (effectiveStart : CivilDate) (daysRemaining : Int)
deriving DecidableEq, Repr

/-- Model of `ProrationEngine.validateDates`: parse both dates, require
start < end, effective start = max(start, now), require a positive
remaining day count. -/
def validateDates (now : CivilDate) (startDate endDate : DateField) : DateValidation :=
  match startDate.parse, endDate.parse with
  | some s, some e =>
    if e.num ≤ s.num then .bad "Start date must be before end date for proration"
    else
      let effectiveStart := if s.num < now.num then now else s
      let daysRemaining := e.num - effectiveStart.num
      if daysRemaining ≤ 0 then .bad "No days remaining for proration"
      else .ok effectiveStart daysRemaining
  | _, _ => .bad "Invalid dates provided for proration calculation"

/-- Model of `ProrationEngine.calculateMonthlyProration` (result in minor units). -/
def calculateMonthlyProration (monthlyAmount : Rat) (startDate : CivilDate)
    (daysRemaining : Int) : Int :=
  let dim : Nat := daysInMonth startDate.year startDate.month
  let dailyRate : Rat := monthlyAmount / (dim : Rat)
  jsRound (dailyRate * (daysRemaining : Rat) * 100)

/-- First day of the calendar quarter containing `d`
(`new Date(year, floor(month0 / 3) * 3, 1)` with 0-based JS months). -/
def quarterStartOf (d : CivilDate) : CivilDate :=
  ⟨d.year, (d.month - 1) / 3 * 3 + 1, 1⟩

/-- Last day of the calendar quarter containing `d`
(`new Date(qsYear, qsMonth0 + 3, 0)`). -/
def quarterEndOf (d : CivilDate) : CivilDate :=
  let qs := quarterStartOf d
  ⟨qs.year, qs.month + 2, daysInMonth qs.year (qs.month + 2)⟩

/-- Model of `ProrationEngine.calculateQuarterlyProration`. -/
def calculateQuarterlyProration (monthlyAmount : Rat) (startDate : CivilDate)
    (daysRemaining : Int) : Int :=
  let quarterlyAmount := monthlyAmount * 3
  let daysInQuarter : Int := differenceInDays (quarterEndOf startDate) (quarterStartOf startDate) + 1
  let dailyRate : Rat := quarterlyAmount / (daysInQuarter : Rat)
  jsRound (dailyRate * (daysRemaining : Rat) * 100)

/-- Model of `ProrationEngine.calculateAnnualProration`. -/
def calculateAnnualProration (monthlyAmount : Rat) (startDate : CivilDate)
    (daysRemaining : Int) : Int :=
  let annualAmount := monthlyAmount * 12
  let daysInYear : Rat := if isLeapYear startDate.year then 366 else 365
  let dailyRate : Rat := annualAmount / daysInYear
  jsRound (dailyRate * (daysRemaining : Rat) * 100)

/-- Model of `ProrationEngine.calculateBaseProration`: dispatch on the billing
frequency string; an unrecognized frequency falls back to the monthly
method. -/
def calculateBaseProration (monthlyAmount : Rat) (startDate : CivilDate)
    (daysRemaining : Int) (billingFrequency : String) : Int :=
  if billingFrequency = "quarterly" then
    calculateQuarterlyProration monthlyAmount startDate daysRemaining
  else if billingFrequency = "annually" then
    calculateAnnualProration monthlyAmount startDate daysRemaining
  else
    calculateMonthlyProration monthlyAmount startDate daysRemaining

/-- Model of `ProrationEngine.applyProrationBusinessRules`: 10 % reduction for a
flagged immediate-invoice scenario whose upsell start lies strictly in
the future, then the partial-increase rescale for a flagged
subscription-update scenario with a lower positive previous price. -/
def applyProrationBusinessRules (now : CivilDate) (baseProration : Int)
    (lineItem : LineItem) (pd : ProrationDetails) : Int :=
  let adjusted1 : Int :=
    if (pd.billing_scenarios.map (fun b => b.immediate_invoice)).getD false then
      match pd.upsell_start_date with
      | some us =>
        if now.num < us.num then
          if 0 < differenceInDays us now then jsRound ((baseProration : Rat) * (9/10))
          else baseProration
        else baseProration
      | none => baseProration
    else baseProration
  if (pd.billing_scenarios.map (fun b => b.subscription_update)).getD false then
    match lineItem.previous_price with
    | some pp =>
      if 0 < pp then
        let priceDifference := lineItem.unit_price - pp
        if 0 < priceDifference then
          jsRound ((adjusted1 : Rat) * (priceDifference / lineItem.unit_price))
        else adjusted1
      else adjusted1
    | none => adjusted1
  else adjusted1

/-- Model of `ProrationEngine.applyMinimumChargeRules`: an amount strictly between
0 and the $1.00 minimum is rounded up to the minimum for
subscription-affecting items and down to 0 otherwise; all other amounts
pass through. -/
def applyMinimumChargeRules (baseProration : Int) (lineItem : LineItem) : Int :=
  if 0 < baseProration ∧ baseProration < MINIMUM_CHARGE then
    if lineItem.item_classification = some .subscription_consumption
        ∨ lineItem.affects_base_subscription then
      MINIMUM_CHARGE
    else 0
  else baseProration

/-- Model of `ProrationEngine.generateProrationNotes`. -/
def generateProrationNotes (lineItem : LineItem) (billingFrequency : String) : List String :=
  [billingFrequency ++ " proration applied"]
    ++ (match lineItem.item_classification with
        | some c => ["Classification: " ++ itemClassStr c]
        | none => [])
    ++ (if lineItem.affects_base_subscription then ["Affects base subscription"] else [])

/-- Model of `ProrationEngine.calculateProration`: validate the dates (reporting a
zero-amount result on failure), compute the frequency-based proration,
apply optional business rules and the minimum-charge floor. -/
def calculateProration (now : CivilDate) (lineItem : LineItem)
    (startDate endDate : DateField) (billingFrequency : String)
    (prorationDetails : Option ProrationDetails) : ProrationResult :=
  match validateDates now startDate endDate with
  | .bad e =>
    { amountInCents := 0
      calculationMethod := "invalid_dates"
      daysCalculated := 0
      billingFrequency := billingFrequency
      notes := [e] }
  | .ok effectiveStart daysRemaining =>
    let monthlyAmount := lineItem.unit_price * lineItem.quantity
    let base0 := calculateBaseProration monthlyAmount effectiveStart daysRemaining billingFrequency
    let base1 := match prorationDetails with
      | some pd => applyProrationBusinessRules now base0 lineItem pd
      | none => base0
    let base2 := applyMinimumChargeRules base1 lineItem
    { amountInCents := base2
      calculationMethod := billingFrequency ++ "_based"
      daysCalculated := daysRemaining
      billingFrequency := billingFrequency
      notes := generateProrationNotes lineItem billingFrequency }

/-! ## Billing actions -/

/-- Model of `BillingActionType`, extended (as the sources do via
`"error" as BillingAction["type"]`) with the synthetic `error` type. -/
inductive ActionType where
  | create_account
  | update_account
  | create_subscription
  | update_subscription
  | cancel_subscription
  | create_invoice
  | apply_credit
  | charge_one_time
  | prorate_charges
  | error
deriving DecidableEq, Repr

/-- Echo of a successful `createSubscription` / `updateSubscription`
provider call (only the four fields the generators copy out of the
response). -/
structure SubResponse where
  uuid : String
  plan_code : String
  unit_amount_in_cents : Rat
  quantity : Rat
deriving DecidableEq, Repr

/-- The `details` bag of a billing action, abbreviated to the fields the
claims inspect; `summary` stands for bags (rollback summaries, restored
states, invoice/charge echoes …) that no claim reads. -/
inductive ActionDetails where
  | accountInfo (account_code : String) (company_name : String) (email : String)
  | subResponse (resp : SubResponse)
  | chargeInfo (product_code : String) (amount_in_cents : Rat)
  | prorationInfo (product_code : String) (proration_amount : Int)
  | invoiceInfo (invoice_ids : List String) (total_amount : Rat)
  | creditInfo (credit_amount_in_cents : Rat)
  | subscriptionId (id : String)
  | errInfo (error : String) (opportunity_id : String)
  | riskInfo (risk_score : Nat) (opportunity_id : String)
  | summary
  | empty
deriving DecidableEq, Repr

/-- Model of `BillingAction` (src/types/index.ts); an absent `notes` array is
`[]`. -/
structure BillingAction where
  atype : ActionType
  description : String
  details : ActionDetails
  amount_in_cents : Option Rat
  effective_date : Option DateField
  requires_review : Bool
  risk_level : RiskLevel
  notes : List String
deriving DecidableEq, Repr

/-! ## Provider-client model -/

/-- Per-call success oracle for the billing-provider client: call number
`k` succeeds iff `o k` is `true`. -/
abbrev Oracle := Nat → Bool

/-- The oracle under which every provider call succeeds. -/
def oracleAllOk : Oracle := fun _ => true

/-- Model of `String(error)` of a failed provider call; no claim inspects the
message text, so a fixed string stands for it. -/
def clientErrorMsg : String := "Error: provider call failed"

/-- Synthetic uuid of the subscription created by provider call `k`. -/
def mkUuid (k : Nat) : String :=
  "sub-" ++ toString k

/-! ## New-business generator
(src/engines/actions/NewBusinessActionGenerator.ts) -/

/-- The `create_account` action of `NewBusinessActionGenerator.generateActions`. -/
def nbAccountAction (opp : Opportunity) : BillingAction :=
  { atype := .create_account
    description := "Create new Recurly account for " ++ opp.account_name
    details := .accountInfo opp.account_id opp.contact_company opp.contact_email
    amount_in_cents := none
    effective_date := none
    requires_review := false
    risk_level := .low
    notes := [] }

/-- Model of `NewBusinessActionGenerator.createOneTimeChargeAction`. -/
def nbChargeAction (item : LineItem) (opp : Opportunity) : BillingAction :=
  { atype := .charge_one_time
    description := "One-time charge: " ++ item.product_name
    details := .chargeInfo item.product_code (item.total_price * 100)
    amount_in_cents := some (item.total_price * 100)
    effective_date := some opp.contract_start_date
    requires_review := decide (1000 < item.total_price)
    risk_level := calculateRiskLevel item.total_price
    notes := if 5000 < item.total_price then ["High-value one-time charge"] else [] }

/-- The action shape of `NewBusinessActionGenerator.createSubscriptionAction`
(after the provider call returned `resp`). -/
def nbSubscriptionAction (item : LineItem) (opp : Opportunity) (resp : SubResponse) : BillingAction :=
  { atype := .create_subscription
    description := "Create subscription: " ++ item.product_name ++ " (" ++ item.billing_period ++ ")"
    details := .subResponse resp
    amount_in_cents := some (item.total_price * 100)
    effective_date := some opp.contract_start_date
    requires_review := false
    risk_level := .low
    notes := [] }

/-- One rollback cancellation of the shared `rollbackItems` shape: a
provider `cancelSubscription` call that either succeeds (`descOk`) or
itself fails (`descFail`). -/
def rollbackCancelAction (ok : Bool) (descOk descFail note : String) (sub : SubResponse) : BillingAction :=
  if ok then
    { atype := .cancel_subscription
      description := descOk ++ sub.plan_code
      details := .subscriptionId sub.uuid
      amount_in_cents := none
      effective_date := none
      requires_review := true
      risk_level := .high
      notes := [note] }
  else
    { atype := .cancel_subscription
      description := descFail ++ sub.plan_code
      details := .subscriptionId sub.uuid
      amount_in_cents := none
      effective_date := none
      requires_review := true
      risk_level := .high
      notes := ["Rollback failed", clientErrorMsg] }

/-- The `for (const sub of createdSubscriptions)` loop of a rollback:
one `cancelSubscription` call (one oracle tick) per created
subscription. -/
def rollbackCancelList (o : Oracle) (descOk descFail note : String) :
    List SubResponse → Nat → Nat × List BillingAction
  | [], k => (k, [])
  | sub :: rest, k =>
    let a := rollbackCancelAction (o k) descOk descFail note sub
    let r := rollbackCancelList o descOk descFail note rest (k + 1)
    (r.1, a :: r.2)

/-- The charges-cannot-be-rolled-back error action of
`NewBusinessActionGenerator.rollbackItems`. -/
def nbChargesErrAction : BillingAction :=
  { atype := .error
    description := "One-time charges cannot be rolled back"
    details := .summary
    amount_in_cents := none
    effective_date := none
    requires_review := true
    risk_level := .high
    notes := ["Manual intervention required for charge reversals"] }

/-- Model of `NewBusinessActionGenerator.rollbackItems`: cancel every created
subscription, then flag unreversible one-time charges. -/
def nbRollback (o : Oracle) (k : Nat) (subs : List SubResponse)
    (hasCharges : Bool) : Nat × List BillingAction :=
  let r := rollbackCancelList o "Rollback: Cancel subscription "
    "Rollback failed: Could not cancel subscription "
    "Rollback due to error during new business processing" subs k
  (r.1, r.2 ++ (if hasCharges then [nbChargesErrAction] else []))

/-- The account-created-but-processing-failed action of
`NewBusinessActionGenerator.handleError`. -/
def nbAccountErrAction (opp : Opportunity) : BillingAction :=
  { atype := .error
    description := "Account " ++ opp.account_id ++ " created but processing failed"
    details := .summary
    amount_in_cents := none
    effective_date := none
    requires_review := true
    risk_level := .high
    notes := ["Manual intervention required to close/delete account",
              "Rollback due to error during new business processing"] }

/-- The terminal error action a generator's `handleError` pushes;
`phrase` is the order-type phrase of the description. -/
def processingErrAction (phrase : String) (opp : Opportunity) : BillingAction :=
  { atype := .error
    description := "Error during " ++ phrase ++ " processing"
    details := .errInfo clientErrorMsg opp.id
    amount_in_cents := none
    effective_date := none
    requires_review := true
    risk_level := .high
    notes := ["Processing halted, rollback attempted"] }

/-- State returned by the new-business line-item loop. -/
structure NbLoopOut where
  k : Nat
  actions : List BillingAction
  subs : List SubResponse
  hasCharges : Bool
  failed : Bool
deriving Repr

/-- The line-item loop of `NewBusinessActionGenerator.generateActions`:
one-time items become charge actions without a provider call, recurring
items perform one `createSubscription` call; a failed call triggers the
in-loop rollback (whose actions are included) and stops the loop. -/
def nbLoop (o : Oracle) (opp : Opportunity) :
    List LineItem → Nat → List SubResponse → Bool → NbLoopOut
  | [], k, subs, hasCharges => ⟨k, [], subs, hasCharges, false⟩
  | item :: rest, k, subs, hasCharges =>
    if item.billing_period = "one_time" then
      let a := nbChargeAction item opp
      let r := nbLoop o opp rest k subs true
      ⟨r.k, a :: r.actions, r.subs, r.hasCharges, r.failed⟩
    else if o k then
      let resp : SubResponse :=
        ⟨mkUuid k, item.product_code, item.unit_price * 100, item.quantity⟩
      let a := nbSubscriptionAction item opp resp
      let r := nbLoop o opp rest (k + 1) (subs ++ [resp]) hasCharges
      ⟨r.k, a :: r.actions, r.subs, r.hasCharges, r.failed⟩
    else
      let rb := nbRollback o (k + 1) subs hasCharges
      ⟨rb.1, rb.2, subs, hasCharges, true⟩

/-- Model of `NewBusinessActionGenerator.generateActions`.  On an item failure the
source rolls back inside the item-level `catch`, rethrows, and the outer
`catch` rolls back a second time before `handleError`; both rollbacks are
reproduced. -/
def newBusinessGenerateActions (o : Oracle) (k0 : Nat) (opp : Opportunity) : List BillingAction :=
  if o k0 then
    let acctAction := nbAccountAction opp
    let r := nbLoop o opp opp.line_items (k0 + 1) [] false
    if r.failed then
      let rb2 := nbRollback o r.k r.subs r.hasCharges
      acctAction :: (r.actions ++ rb2.2
        ++ [nbAccountErrAction opp, processingErrAction "new business" opp])
    else
      acctAction :: r.actions
  else
    -- `createAccount` itself failed: the outer catch rolls back empty
    -- lists (emitting nothing) and `handleError` sees no created account.
    [processingErrAction "new business" opp]

/-! ## Renewal generator (RenewalActionGenerator) -/

/-- The ERROR-and-stop action emitted when a non-new-business generator
receives no existing billing state. -/
def missingStateAction (desc note : String) : BillingAction :=
  { atype := .create_account
    description := "ERROR: " ++ desc
    details := .empty
    amount_in_cents := none
    effective_date := none
    requires_review := true
    risk_level := .high
    notes := [note] }

/-- Model of `RenewalActionGenerator.findMatchingSubscription`: exact or
either-way substring match of plan code against product code. -/
def findMatchingSubscription (st : RecurlyState) (item : LineItem) : Option RecurlySubscription :=
  st.subscriptions.find? (fun sub =>
    sub.plan_code == item.product_code
      || strContains sub.plan_code item.product_code
      || strContains item.product_code sub.plan_code)

/-- The action shape of `RenewalActionGenerator.updateExistingSubscription`:
the review flag and the risk tier are driven by the price change
`item.unit_price − existing.unit_amount_in_cents / 100`, a value in
dollars that the source compares against the literal 100. -/
def updateExistingSubscriptionAction (item : LineItem) (existingSub : RecurlySubscription)
    (opp : Opportunity) (resp : SubResponse) : BillingAction :=
  let priceChange : Rat := item.unit_price - existingSub.unit_amount_in_cents / 100
  { atype := .update_subscription
    description := "Update subscription: " ++ item.product_name
    details := .subResponse resp
    amount_in_cents := some (item.total_price * 100)
    effective_date := some opp.contract_start_date
    requires_review := decide (100 < |priceChange|)
    risk_level := calculateRiskLevel |priceChange|
    notes := match item.price_change_reason with
      | some r => [r]
      | none => [] }

/-- The action shape of `RenewalActionGenerator.createNewSubscription`. -/
def renewalCreateSubscriptionAction (item : LineItem) (opp : Opportunity)
    (resp : SubResponse) : BillingAction :=
  { atype := .create_subscription
    description := "Create new subscription: " ++ item.product_name
    details := .subResponse resp
    amount_in_cents := some (item.total_price * 100)
    effective_date := some opp.contract_start_date
    requires_review := true
    risk_level := .medium
    notes := ["New product added during renewal"] }

/-- Original state of an updated subscription, kept for rollback. -/
structure OriginalSub where
  unit_amount_in_cents : Rat
  quantity : Rat
  plan_code : String
deriving DecidableEq, Repr

/-- One restore step of `RenewalActionGenerator.rollbackItems`: an
`updateSubscription` call back to the original state that either
succeeds or itself fails. -/
def renewalRestoreAction (ok : Bool) (sub : SubResponse) : BillingAction :=
  if ok then
    { atype := .update_subscription
      description := "Rollback: Restore subscription " ++ sub.plan_code ++ " to original state"
      details := .summary
      amount_in_cents := none
      effective_date := none
      requires_review := true
      risk_level := .high
      notes := ["Rollback due to error during renewal processing"] }
  else
    { atype := .update_subscription
      description := "Rollback failed: Could not restore subscription " ++ sub.plan_code
      details := .subscriptionId sub.uuid
      amount_in_cents := none
      effective_date := none
      requires_review := true
      risk_level := .high
      notes := ["Rollback failed", clientErrorMsg] }

/-- The restore loop of `RenewalActionGenerator.rollbackItems`. -/
def renewalRestoreList (o : Oracle) :
    List (SubResponse × OriginalSub) → Nat → Nat × List BillingAction
  | [], k => (k, [])
  | (sub, _) :: rest, k =>
    let a := renewalRestoreAction (o k) sub
    let r := renewalRestoreList o rest (k + 1)
    (r.1, a :: r.2)

/-- Model of `RenewalActionGenerator.rollbackItems`: restore updated
subscriptions, then cancel created ones. -/
def renewalRollback (o : Oracle) (k : Nat) (upd : List (SubResponse × OriginalSub))
    (cre : List SubResponse) : Nat × List BillingAction :=
  let r1 := renewalRestoreList o upd k
  let r2 := rollbackCancelList o "Rollback: Cancel subscription "
    "Rollback failed: Could not cancel subscription "
    "Rollback due to error during renewal processing" cre r1.1
  (r2.1, r1.2 ++ r2.2)

/-- State returned by the renewal line-item loop. -/
structure RenewalLoopOut where
  k : Nat
  actions : List BillingAction
  updated : List (SubResponse × OriginalSub)
  created : List SubResponse
  failed : Bool
deriving Repr

/-- The line-item loop of `RenewalActionGenerator.generateActions`: each
item is matched against the existing subscriptions and updated
(one `updateSubscription` call) or newly created (one
`createSubscription` call); there is no item-level catch, so a failed
call just stops the loop. -/
def renewalLoop (o : Oracle) (opp : Opportunity) (st : RecurlyState) :
    List LineItem → Nat → List (SubResponse × OriginalSub) → List SubResponse → RenewalLoopOut
  | [], k, upd, cre => ⟨k, [], upd, cre, false⟩
  | item :: rest, k, upd, cre =>
    match findMatchingSubscription st item with
    | some existingSub =>
      if o k then
        let resp : SubResponse :=
          ⟨existingSub.uuid, item.product_code, item.unit_price * 100, item.quantity⟩
        let orig : OriginalSub :=
          ⟨existingSub.unit_amount_in_cents, existingSub.quantity, existingSub.plan_code⟩
        let a := updateExistingSubscriptionAction item existingSub opp resp
        let r := renewalLoop o opp st rest (k + 1) (upd ++ [(resp, orig)]) cre
        ⟨r.k, a :: r.actions, r.updated, r.created, r.failed⟩
      else ⟨k + 1, [], upd, cre, true⟩
    | none =>
      if o k then
        let resp : SubResponse :=
          ⟨mkUuid k, item.product_code, item.unit_price * 100, item.quantity⟩
        let a := renewalCreateSubscriptionAction item opp resp
        let r := renewalLoop o opp st rest (k + 1) upd (cre ++ [resp])
        ⟨r.k, a :: r.actions, r.updated, r.created, r.failed⟩
      else ⟨k + 1, [], upd, cre, true⟩

/-- Model of `RenewalActionGenerator.generateActions`. -/
def renewalGenerateActions (o : Oracle) (k0 : Nat) (opp : Opportunity)
    (st : Option RecurlyState) : List BillingAction :=
  match st with
  | none =>
    [missingStateAction "Renewal opportunity but no existing Recurly account found"
      "Manual intervention required - account should exist for renewal"]
  | some state =>
    let r := renewalLoop o opp state opp.line_items k0 [] []
    if r.failed then
      let rb := renewalRollback o r.k r.updated r.created
      r.actions ++ rb.2 ++ [processingErrAction "renewal" opp]
    else r.actions

/-! ## Insertion-order generator
(src/engines/actions/InsertionOrderActionGenerator.ts) -/

/-- Model of `InsertionOrderActionGenerator.createOutstandingInvoiceAction`
(the outstanding total interpolated into the source's description string
is left out of the model's description; no claim reads it). -/
def outstandingInvoiceAction (oi : OutstandingInvoices) : BillingAction :=
  { atype := .create_invoice
    description := "Process outstanding invoices"
    details := .invoiceInfo oi.invoice_ids (oi.total_outstanding.getD 0)
    amount_in_cents := some ((oi.total_outstanding.getD 0) * 100)
    effective_date := none
    requires_review := true
    risk_level := .medium
    notes := ["Outstanding invoices must be processed before new charges"] }

/-- Model of `InsertionOrderActionGenerator.createOneTimeChargeAction` (differs
from the new-business variant in details and notes). -/
def insChargeAction (item : LineItem) (opp : Opportunity) : BillingAction :=
  { atype := .charge_one_time
    description := "One-time charge: " ++ item.product_name
    details := .chargeInfo item.product_code (item.total_price * 100)
    amount_in_cents := some (item.total_price * 100)
    effective_date := some opp.contract_start_date
    requires_review := decide (1000 < item.total_price)
    risk_level := calculateRiskLevel item.total_price
    notes := if item.immediate_invoice then ["Immediate invoicing required"] else [] }

/-- Model of `InsertionOrderActionGenerator.createProrationAction`: pure — it
calls the proration engine and always emits a review-required medium
`prorate_charges` action carrying the result, whatever the result is. -/
def createProrationAction (now : CivilDate) (item : LineItem) (opp : Opportunity) : BillingAction :=
  let r := calculateProration now item opp.contract_start_date opp.contract_end_date
    opp.billing_frequency opp.proration_details
  { atype := .prorate_charges
    description := "Prorate charges for: " ++ item.product_name
    details := .prorationInfo item.product_code r.amountInCents
    amount_in_cents := some ((r.amountInCents : Rat))
    effective_date := some opp.contract_start_date
    requires_review := true
    risk_level := .medium
    notes := ["Proration calculation - verify dates and amounts",
        "Classification: " ++ (match item.item_classification with
          | some c => itemClassStr c
          | none => "unknown")]
      ++ r.notes }

/-- The action shape of `InsertionOrderActionGenerator.createSubscriptionAction`. -/
def insSubscriptionAction (item : LineItem) (opp : Opportunity) (resp : SubResponse) : BillingAction :=
  { atype := .create_subscription
    description := "Add subscription: " ++ item.product_name
    details := .subResponse resp
    amount_in_cents := some (item.total_price * 100)
    effective_date := some opp.contract_start_date
    requires_review := false
    risk_level := .low
    notes := [] }

/-- The charges/invoices-cannot-be-rolled-back error action of
`InsertionOrderActionGenerator.rollbackItems`. -/
def insChargesErrAction : BillingAction :=
  { atype := .error
    description := "Charges and invoices cannot be automatically rolled back"
    details := .summary
    amount_in_cents := none
    effective_date := none
    requires_review := true
    risk_level := .high
    notes := ["Manual intervention required for charge/invoice reversals"] }

/-- Model of `InsertionOrderActionGenerator.rollbackItems`. -/
def insRollback (o : Oracle) (k : Nat) (subs : List SubResponse)
    (hasChargesOrInvoices : Bool) : Nat × List BillingAction :=
  let r := rollbackCancelList o "Rollback: Cancel subscription "
    "Rollback failed: Could not cancel subscription "
    "Rollback due to error during insertion order processing" subs k
  (r.1, r.2 ++ (if hasChargesOrInvoices then [insChargesErrAction] else []))

/-- State returned by the insertion-order line-item loop. -/
structure InsLoopOut where
  k : Nat
  actions : List BillingAction
  subs : List SubResponse
  hasCharges : Bool
  failed : Bool
deriving Repr

/-- The line-item loop of `InsertionOrderActionGenerator.generateActions`:
one-time items and proration-needed items are pure, other items perform
one `createSubscription` call; like the new-business loop, a failed call
triggers an in-loop rollback and stops. -/
def insLoop (o : Oracle) (now : CivilDate) (opp : Opportunity) (hasInvoices : Bool) :
    List LineItem → Nat → List SubResponse → Bool → InsLoopOut
  | [], k, subs, hasCharges => ⟨k, [], subs, hasCharges, false⟩
  | item :: rest, k, subs, hasCharges =>
    if item.billing_period = "one_time" then
      let a := insChargeAction item opp
      let r := insLoop o now opp hasInvoices rest k subs true
      ⟨r.k, a :: r.actions, r.subs, r.hasCharges, r.failed⟩
    else if item.proration_needed then
      let a := createProrationAction now item opp
      let r := insLoop o now opp hasInvoices rest k subs true
      ⟨r.k, a :: r.actions, r.subs, r.hasCharges, r.failed⟩
    else if o k then
      let resp : SubResponse :=
        ⟨mkUuid k, item.product_code, item.unit_price * 100, item.quantity⟩
      let a := insSubscriptionAction item opp resp
      let r := insLoop o now opp hasInvoices rest (k + 1) (subs ++ [resp]) hasCharges
      ⟨r.k, a :: r.actions, r.subs, r.hasCharges, r.failed⟩
    else
      let rb := insRollback o (k + 1) subs (hasCharges || hasInvoices)
      ⟨rb.1, rb.2, subs, hasCharges, true⟩

/-- Model of `InsertionOrderActionGenerator.generateActions`. -/
def insertionOrderGenerateActions (o : Oracle) (now : CivilDate) (k0 : Nat)
    (opp : Opportunity) (st : Option RecurlyState) : List BillingAction :=
  match st with
  | none =>
    [missingStateAction "Insertion order opportunity but no existing Recurly account found"
      "Manual intervention required - account should exist for insertion order"]
  | some _ =>
    let invoiceActs :=
      match opp.outstanding_invoices with
      | some oi => if oi.has_outstanding then [outstandingInvoiceAction oi] else []
      | none => []
    let hasInvoices := !invoiceActs.isEmpty
    let r := insLoop o now opp hasInvoices opp.line_items k0 [] false
    if r.failed then
      let rb2 := insRollback o r.k r.subs (r.hasCharges || hasInvoices)
      invoiceActs ++ r.actions ++ rb2.2 ++ [processingErrAction "insertion order" opp]
    else invoiceActs ++ r.actions

/-! ## Conversion generator (ConversionActionGenerator) -/

/-- The action shape of
`ConversionActionGenerator.cancelSelfServiceSubscription`. -/
def convCancelAction (sub : RecurlySubscription) : BillingAction :=
  { atype := .cancel_subscription
    description := "Cancel self-service subscription: " ++ sub.plan_code
    details := .subscriptionId sub.uuid
    amount_in_cents := none
    effective_date := none
    requires_review := false
    risk_level := .medium
    notes := ["Ensure no service interruption during transition"] }

/-- Model of `ConversionActionGenerator.createCreditAction`. -/
def convCreditAction (bt : BillingTransition) : BillingAction :=
  { atype := .apply_credit
    description := "Apply credit for unused self-service period"
    details := .creditInfo ((bt.credit_amount_due.getD 0) * 100)
    amount_in_cents := some ((bt.credit_amount_due.getD 0) * 100)
    effective_date := none
    requires_review := true
    risk_level := .medium
    notes := ["Verify credit calculation is correct"] }

/-- The action shape of
`ConversionActionGenerator.createEnterpriseSubscription` (provider call
configured for manual collection with 30-day terms). -/
def convSubscriptionAction (item : LineItem) (opp : Opportunity) (resp : SubResponse) : BillingAction :=
  { atype := .create_subscription
    description := "Create enterprise subscription: " ++ item.product_name
    details := .subResponse resp
    amount_in_cents := some (item.total_price * 100)
    effective_date := some opp.contract_start_date
    requires_review := false
    risk_level := .low
    notes := [] }

/-- The manual-rollback-needed error action of
`ConversionActionGenerator.rollbackItems`. -/
def convManualErrAction : BillingAction :=
  { atype := .error
    description := "Cancelled subscriptions and applied credits require manual rollback"
    details := .summary
    amount_in_cents := none
    effective_date := none
    requires_review := true
    risk_level := .high
    notes := ["Manual intervention required to restore cancelled subscriptions and reverse credits"] }

/-- Model of `ConversionActionGenerator.rollbackItems`. -/
def convRollback (o : Oracle) (k : Nat) (created : List SubResponse)
    (hasCancelledOrCredits : Bool) : Nat × List BillingAction :=
  let r := rollbackCancelList o "Rollback: Cancel enterprise subscription "
    "Rollback failed: Could not cancel enterprise subscription "
    "Rollback due to error during conversion processing" created k
  (r.1, r.2 ++ (if hasCancelledOrCredits then [convManualErrAction] else []))

/-- State returned by the conversion cancellation loop. -/
structure ConvCancelOut where
  k : Nat
  actions : List BillingAction
  cancelledSome : Bool
  failed : Bool
deriving Repr

/-- The cancellation loop of `ConversionActionGenerator.generateActions`:
one `cancelSubscription` call per currently active existing
subscription. -/
def convCancelLoop (o : Oracle) :
    List RecurlySubscription → Nat → ConvCancelOut
  | [], k => ⟨k, [], false, false⟩
  | sub :: rest, k =>
    if sub.state = "active" then
      if o k then
        let a := convCancelAction sub
        let r := convCancelLoop o rest (k + 1)
        ⟨r.k, a :: r.actions, true, r.failed⟩
      else ⟨k + 1, [], false, true⟩
    else convCancelLoop o rest k

/-- State returned by the conversion subscription-creation loop. -/
structure ConvCreateOut where
  k : Nat
  actions : List BillingAction
  created : List SubResponse
  failed : Bool
deriving Repr

/-- The subscription-creation loop of
`ConversionActionGenerator.generateActions`. -/
def convCreateLoop (o : Oracle) (opp : Opportunity) :
    List LineItem → Nat → ConvCreateOut
  | [], k => ⟨k, [], [], false⟩
  | item :: rest, k =>
    if o k then
      let resp : SubResponse :=
        ⟨mkUuid k, item.product_code, item.unit_price * 100, item.quantity⟩
      let a := convSubscriptionAction item opp resp
      let r := convCreateLoop o opp rest (k + 1)
      ⟨r.k, a :: r.actions, resp :: r.created, r.failed⟩
    else ⟨k + 1, [], [], true⟩

/-- Model of `ConversionActionGenerator.generateActions`: cancel active existing
subscriptions, optionally apply the transition credit (skipped when the
stated amount is absent or 0, both falsy), create enterprise
subscriptions; any provider failure reaches the single outer catch,
which rolls back and appends the terminal error action. -/
def conversionGenerateActions (o : Oracle) (k0 : Nat) (opp : Opportunity)
    (st : Option RecurlyState) : List BillingAction :=
  match st with
  | none =>
    [missingStateAction "Conversion opportunity but no existing Recurly account found"
      "Manual intervention required - self-service account should exist"]
  | some state =>
    let c := convCancelLoop o state.subscriptions k0
    if c.failed then
      let rb := convRollback o c.k [] c.cancelledSome
      c.actions ++ rb.2 ++ [processingErrAction "conversion" opp]
    else
      let creditActs :=
        match opp.billing_transition with
        | some bt =>
          match bt.credit_amount_due with
          | some amt => if amt = 0 then [] else [convCreditAction bt]
          | none => []
        | none => []
      let r := convCreateLoop o opp opp.line_items c.k
      if r.failed then
        let rb := convRollback o r.k r.created (c.cancelledSome || !creditActs.isEmpty)
        c.actions ++ creditActs ++ r.actions ++ rb.2 ++ [processingErrAction "conversion" opp]
      else c.actions ++ creditActs ++ r.actions

/-! ## Action factory / dispatcher (ActionFactory) -/

/-- The single synthetic error action of `ActionFactory.handleError` and
of the orchestrator's own catch (the sources duplicate this shape). -/
def criticalErrorAction (opp : Opportunity) (err : String) : BillingAction :=
  { atype := .error
    description := "Critical error during " ++ opp.otype ++ " processing"
    details := .errInfo err opp.id
    amount_in_cents := none
    effective_date := none
    requires_review := true
    risk_level := .high
    notes := ["Processing completely failed", "Manual intervention required"] }

/-- Model of `ActionFactory.generateActions`: dispatch on the declared order
type.  Each generator catches every exception internally (all four end in
a catch-all that appends error actions and returns normally), so in this
embedding the factory's own catch only fires for the `default` branch,
whose thrown `Error` it stringifies into the synthetic error action. -/
def actionFactoryGenerateActions (o : Oracle) (now : CivilDate) (k0 : Nat)
    (opp : Opportunity) (st : Option RecurlyState) : List BillingAction :=
  if opp.otype = "new_business" then newBusinessGenerateActions o k0 opp
  else if opp.otype = "renewal" then renewalGenerateActions o k0 opp st
  else if opp.otype = "insertion_order" then insertionOrderGenerateActions o now k0 opp st
  else if opp.otype = "conversion_order" then conversionGenerateActions o k0 opp st
  else [criticalErrorAction opp ("Error: Unsupported opportunity type: " ++ opp.otype)]

/-! ## Billing engine orchestrator (BillingEngine) -/

/-- The per-line-item checks of `BillingEngine.validateOpportunity`,
returning the first thrown message. -/
def lineItemsError : List LineItem → Option String
  | [] => none
  | item :: rest =>
    if item.product_code = "" ∨ item.product_name = "" then
      some "Product code and name are required for all line items"
    else if item.unit_price ≤ 0 then
      some "Unit price must be greater than 0"
    else if item.quantity ≤ 0 then
      some "Quantity must be greater than 0"
    else lineItemsError rest

/-- Model of `BillingEngine.validateOpportunity`: the sequential required-field,
line-item and date checks, returning the message of the first `Error`
thrown (`none` when validation passes). -/
def validateOpportunity (opp : Opportunity) : Option String :=
  if opp.id = "" then some "Opportunity ID is required"
  else if opp.otype = "" then some "Opportunity type is required"
  else if opp.account_id = "" then some "Account ID is required"
  else if opp.contract_start_date.isFalsy || opp.contract_end_date.isFalsy then
    some "Contract start and end dates are required"
  else if opp.line_items.isEmpty then some "At least one line item is required"
  else match lineItemsError opp.line_items with
  | some e => some e
  | none =>
    match opp.contract_start_date.parse, opp.contract_end_date.parse with
    | some s, some e =>
      if e.num ≤ s.num then some "Contract start date must be before end date"
      else none
    | _, _ => some "Invalid contract dates"

/-- The high-risk warning action the orchestrator prepends when the
opportunity-level risk assessment is high. -/
def highRiskWarningAction (opp : Opportunity) (risk : RiskCalculationResult) : BillingAction :=
  { atype := .error
    description := "High-risk opportunity detected"
    details := .riskInfo risk.score opp.id
    amount_in_cents := none
    effective_date := none
    requires_review := true
    risk_level := .high
    notes := ["Opportunity requires special attention due to risk factors",
        "Risk score: " ++ toString risk.score]
      ++ risk.factors }

/-- Model of `BillingEngine.generateActions` (the orchestrator of
src/engines/BillingEngine.ts that delegates to the `ActionFactory`):
validation failures short-circuit through the catch into a single
critical error action; otherwise the factory's actions are returned,
with the high-risk warning prepended when the opportunity risk level is
high.  The factory and the risk calculator are total here, so the
orchestrator's catch is reached exactly by validation throws. -/
def billingEngineGenerateActions (o : Oracle) (now : CivilDate)
    (opp : Opportunity) (st : Option RecurlyState) : List BillingAction :=
  match validateOpportunity opp with
  | some e => [criticalErrorAction opp ("Error: " ++ e)]
  | none =>
    let opportunityRisk := calculateOpportunityRisk opp
    let actions := actionFactoryGenerateActions o now 0 opp st
    if opportunityRisk.riskLevel = .high then
      highRiskWarningAction opp opportunityRisk :: actions
    else actions

/-! ## Invariant predicates -/

/-- The review invariant of claim C9: a high-risk action must be flagged
for review. -/
def ReviewInv (l : List BillingAction) : Prop :=
  ∀ a ∈ l, a.risk_level = .high → a.requires_review = true

/-! ## Concrete fixtures used by counterexamples and witnesses -/

/-- A well-formed baseline line item. -/
def defItem : LineItem :=
  { product_code := "P"
    product_name := "Prod"
    quantity := 1
    unit_price := 10
    total_price := 10
    billing_period := "monthly"
    item_classification := none
    previous_price := none
    price_change_reason := none
    proration_needed := false
    affects_base_subscription := false
    immediate_invoice := false
    replaces_self_service := false }

/-- A well-formed baseline opportunity (new business, one item, net-30,
one-year 2024 contract). -/
def defOpp : Opportunity :=
  { id := "opp-1"
    otype := "new_business"
    account_name := "Acme"
    account_id := "acc-1"
    amount := 100
    contract_start_date := .valid ⟨2024, 1, 1⟩
    contract_end_date := .valid ⟨2024, 12, 31⟩
    billing_frequency := "monthly"
    payment_terms := "net_30"
    line_items := [defItem]
    contact_email := "ops@acme.test"
    contact_company := "Acme"
    proration_details := none
    billing_transition := none
    outstanding_invoices := none }

/-- A fixed clock for concrete evaluations: 2024-06-15. -/
def now0 : CivilDate := ⟨2024, 6, 15⟩

/-- C1 fixture: renewal line item at $102/unit matching plan `PLAN-A`. -/
def c1Item : LineItem :=
  { defItem with
      product_code := "PLAN-A"
      unit_price := 102
      total_price := 102 }

/-- C1 fixture: existing subscription on plan `PLAN-A` at $100
(10 000 minor units). -/
def c1Sub : RecurlySubscription :=
  { uuid := "s1"
    plan_code := "PLAN-A"
    state := "active"
    unit_amount_in_cents := 10000
    quantity := 1 }

/-- C1 fixture: existing billing state holding just `c1Sub`. -/
def c1State : RecurlyState := ⟨[c1Sub]⟩

/-- C1 fixture: renewal opportunity whose only line item has a $2 price
delta against the matching subscription. -/
def c1Opp : Opportunity :=
  { defOpp with
      otype := "renewal"
      line_items := [c1Item] }

/-- C2 fixture: 11 line items, one of them one-time, one of them
proration-needed. -/
def c2Items : List LineItem :=
  { defItem with billing_period := "one_time" }
    :: { defItem with proration_needed := true }
    :: List.replicate 9 defItem

/-- C2 fixture: opportunity carrying `c2Items`. -/
def c2Opp : Opportunity :=
  { defOpp with line_items := c2Items }

/-- C3 fixture: the spec's simple new-business scenario — one monthly
item at $1,000/month and one one-time $5,000 setup fee. -/
def c3Opp : Opportunity :=
  { defOpp with
      line_items :=
        [{ defItem with
             product_code := "PLAN"
             product_name := "Plan"
             unit_price := 1000
             total_price := 1000 },
         { defItem with
             product_code := "SETUP"
             product_name := "Setup"
             billing_period := "one_time"
             unit_price := 5000
             total_price := 5000 }] }

/-- C4 fixture: a subscription-consumption line item. -/
def c4Item : LineItem :=
  { defItem with item_classification := some .subscription_consumption }

/-- C5 fixture: insertion-order opportunity whose contract ended
(2020-02-01) long before the `now0` clock, so the remaining proration
period is negative. -/
def c5Opp : Opportunity :=
  { defOpp with
      otype := "insertion_order"
      contract_start_date := .valid ⟨2020, 1, 1⟩
      contract_end_date := .valid ⟨2020, 2, 1⟩ }

/-- C7 fixture: opportunity with an unrecognized order type. -/
def c7Opp : Opportunity :=
  { defOpp with otype := "upsell" }

/-- C8 fixture: opportunity whose only line item has unit price 0. -/
def c8Opp : Opportunity :=
  { defOpp with line_items := [{ defItem with unit_price := 0 }] }

/-! ## Helper lemmas -/

/-- A high amount tier means the amount strictly exceeds $5,000. -/
theorem calculateRiskLevel_eq_high {x : Rat} (h : calculateRiskLevel x = .high) :
    5000 < x := by
  unfold calculateRiskLevel at h
  by_cases h1 : x ≤ 1000
  · simp [h1] at h
  · by_cases h2 : x ≤ 5000
    · simp [h1, h2] at h
    · exact lt_of_not_le h2

/-! ## Claim C1 -/

/-- Claim C1, counterexample: in a renewal against an existing $100.00
subscription, a line item priced $102.00 has an absolute price delta of
$2.00 — more than $1.00 — yet the emitted `update_subscription` action
has `requires_review = false`, because the source compares the
dollar-valued delta against the literal 100. -/
theorem claim1_counterexample :
    ((renewalGenerateActions oracleAllOk 0 c1Opp (some c1State)).map
        (fun a => (a.atype, a.requires_review))
      = [(.update_subscription, false)])
    ∧ 1 < |c1Item.unit_price - c1Sub.unit_amount_in_cents / 100| := by
  with_unfolding_all decide

/-- Claim C1, amended: the `update_subscription` action emitted for a
line item matching an existing subscription requires review exactly when
the absolute difference between the item's unit price and the existing
subscription's unit price (both in dollars) exceeds 100 — that is,
$100.00 (10 000 minor units), not $1.00 — and its risk level is the
amount tier of that absolute delta. -/
theorem claim1_amended (item : LineItem) (sub : RecurlySubscription)
    (opp : Opportunity) (resp : SubResponse) :
    ((updateExistingSubscriptionAction item sub opp resp).requires_review = true
      ↔ 100 < |item.unit_price - sub.unit_amount_in_cents / 100|)
    ∧ (updateExistingSubscriptionAction item sub opp resp).risk_level
      = calculateRiskLevel |item.unit_price - sub.unit_amount_in_cents / 100| := by
  constructor
  · simp [updateExistingSubscriptionAction]
  · rfl

/-! ## Claim C2 -/

/-- Claim C2, counterexample: for an opportunity with 11 line items, one
of them one-time and one proration-needed, the line-item complexity
sub-score is 8 + 3 + 4 = 15, exceeding the claimed 0–10 range (and it
flows into the total opportunity score, here 15 + 3 + 1 = 19). -/
theorem claim2_counterexample :
    (calculateComplexityRisk c2Opp.line_items).score = 15
    ∧ 10 < (calculateComplexityRisk c2Opp.line_items).score
    ∧ (calculateOpportunityRisk c2Opp).score = 19 := by
  with_unfolding_all decide

/-- Claim C2, amended: the amount-tier, contract-duration and
payment-terms sub-scores lie in [0, 10] (scores are naturals, so the
lower bound is implicit), the line-item complexity sub-score lies in
[0, 15] (its count band, one-time bonus and proration bonus can stack to
8 + 3 + 4), the total is their sum, and the final level obeys the
claimed thresholds: ≤ 10 low, ≤ 20 medium, otherwise high. -/
theorem claim2_amended (opp : Opportunity) :
    (calculateAmountRisk opp.amount).score ≤ 10
    ∧ (calculateComplexityRisk opp.line_items).score ≤ 15
    ∧ (calculateDurationRisk opp.contract_start_date opp.contract_end_date).score ≤ 10
    ∧ (calculatePaymentTermsRisk opp.payment_terms).score ≤ 10
    ∧ (calculateOpportunityRisk opp).score
      = (calculateAmountRisk opp.amount).score
        + (calculateComplexityRisk opp.line_items).score
        + (calculateDurationRisk opp.contract_start_date opp.contract_end_date).score
        + (calculatePaymentTermsRisk opp.payment_terms).score
    ∧ (calculateOpportunityRisk opp).riskLevel
      = (if (calculateOpportunityRisk opp).score ≤ 10 then .low
         else if (calculateOpportunityRisk opp).score ≤ 20 then .medium
         else .high) := by
  refine ⟨?_, ?_, ?_, ?_, rfl, rfl⟩
  · simp only [calculateAmountRisk]
    repeat' split
    all_goals decide
  · simp only [calculateComplexityRisk]
    repeat' split
    all_goals decide
  · simp only [calculateDurationRisk]
    repeat' split
    all_goals decide
  · simp only [calculatePaymentTermsRisk]
    repeat' split
    all_goals decide

/-! ## Claim C3 -/

/-- Claim C3, counterexample: in the simple new-business scenario (one
monthly $1,000 item plus a one-time $5,000 setup fee) no emitted action
carries any note — in particular not "High-value one-time charge",
because the note requires `total_price > 5000` strictly and the fee is
exactly $5,000. -/
theorem claim3_counterexample :
    (newBusinessGenerateActions oracleAllOk 0 c3Opp).map (fun a => a.notes)
      = [[], [], []] := by
  simp [newBusinessGenerateActions, nbLoop, nbAccountAction, nbChargeAction,
    nbSubscriptionAction, oracleAllOk, c3Opp, defOpp, defItem, calculateRiskLevel, mkUuid]

/-- Claim C3, amended: the simple new-business scenario yields exactly
three actions — `create_account`; `create_subscription` with amount
100 000 minor units; `charge_one_time` with amount 500 000 minor units
and `requires_review = true` — but the `charge_one_time` action carries
no "High-value one-time charge" note, since that note requires a total
strictly above $5,000. -/
theorem claim3_amended :
    (newBusinessGenerateActions oracleAllOk 0 c3Opp).map
        (fun a => (a.atype, a.amount_in_cents, a.requires_review, a.notes))
      = [(.create_account, none, false, []),
         (.create_subscription, some 100000, false, []),
         (.charge_one_time, some 500000, true, [])] := by
  simp [newBusinessGenerateActions, nbLoop, nbAccountAction, nbChargeAction,
    nbSubscriptionAction, oracleAllOk, c3Opp, defOpp, defItem, calculateRiskLevel, mkUuid]
  norm_num

/-! ## Claim C4 -/

/-- Claim C4: the minimum-charge floor of the proration engine — an
amount strictly between 0 and 100 minor units becomes exactly 100 when
the line item is classified `subscription_consumption` or has
`affects_base_subscription`, and exactly 0 otherwise; amounts of 0 or
≥ 100 minor units pass through unchanged. -/
theorem claim4_minimum_charge_floor (base : Int) (item : LineItem) :
    (0 < base → base < 100 →
      applyMinimumChargeRules base item
        = (if item.item_classification = some .subscription_consumption
              ∨ item.affects_base_subscription
           then 100 else 0))
    ∧ ((base = 0 ∨ 100 ≤ base) → applyMinimumChargeRules base item = base) := by
  constructor
  · intro h1 h2
    unfold applyMinimumChargeRules MINIMUM_CHARGE
    rw [if_pos ⟨h1, h2⟩]
  · intro h
    unfold applyMinimumChargeRules MINIMUM_CHARGE
    rcases h with h | h
    · rw [if_neg]
      simp [h]
    · rw [if_neg]
      rintro ⟨-, h2⟩
      omega

/-- Claim C4, witness: at base amount 50 and a subscription-consumption
item the floor yields exactly 100. -/
theorem claim4_witness :
    (0 : Int) < 50 ∧ (50 : Int) < 100 ∧ applyMinimumChargeRules 50 c4Item = 100 :=
  ⟨by decide, by decide, by
    have h := (claim4_minimum_charge_floor 50 c4Item).1 (by decide) (by decide)
    simpa [c4Item, defItem] using h⟩

/-! ## Claim C6 -/

/-- Claim C6: the amount-tier risk level is monotone non-decreasing in
the amount (under low < medium < high), and every amount maps to one of
the three levels. -/
theorem claim6_amount_tier_monotone (a b : Rat) :
    (a ≤ b → riskRank (calculateRiskLevel a) ≤ riskRank (calculateRiskLevel b))
    ∧ (calculateRiskLevel a = .low ∨ calculateRiskLevel a = .medium
        ∨ calculateRiskLevel a = .high) := by
  constructor
  · intro hab
    unfold calculateRiskLevel
    by_cases h1 : a ≤ 1000 <;> by_cases h2 : b ≤ 1000 <;>
      by_cases h3 : a ≤ 5000 <;> by_cases h4 : b ≤ 5000 <;>
      simp [h1, h2, h3, h4, riskRank] <;> linarith
  · unfold calculateRiskLevel
    split
    · exact Or.inl rfl
    · split
      · exact Or.inr (Or.inl rfl)
      · exact Or.inr (Or.inr rfl)

/-- Claim C6, witness: 0 ≤ 6000 and the tier of 0 (low) is no higher
than the tier of 6000 (high). -/
theorem claim6_witness :
    (0 : Rat) ≤ 6000
    ∧ riskRank (calculateRiskLevel 0) ≤ riskRank (calculateRiskLevel 6000) :=
  ⟨by norm_num, (claim6_amount_tier_monotone 0 6000).1 (by norm_num)⟩

/-! ## Claim C5 -/

/-- Claim C5: whenever the proration dates are unparsable, or the start
is not strictly before the end, or the remaining period from the
effective start (the later of contract start and `now`) to the contract
end is ≤ 0 days, `calculateProration` returns a zero-amount result with
an explanatory note instead of throwing, and
`createProrationAction` still emits a `prorate_charges` action carrying
that result (amount 0, the note included). -/
theorem claim5_invalid_range_is_advisory (now : CivilDate) (item : LineItem)
    (opp : Opportunity)
    (h : opp.contract_start_date.parse = none
      ∨ opp.contract_end_date.parse = none
      ∨ (∃ s e, opp.contract_start_date.parse = some s
          ∧ opp.contract_end_date.parse = some e
          ∧ (e.num ≤ s.num ∨ e.num - max s.num now.num ≤ 0))) :
    ∃ msg,
      calculateProration now item opp.contract_start_date opp.contract_end_date
          opp.billing_frequency opp.proration_details
        = { amountInCents := 0, calculationMethod := "invalid_dates", daysCalculated := 0,
            billingFrequency := opp.billing_frequency, notes := [msg] }
      ∧ (createProrationAction now item opp).atype = .prorate_charges
      ∧ (createProrationAction now item opp).amount_in_cents = some 0
      ∧ msg ∈ (createProrationAction now item opp).notes := by
  have hbad : ∃ msg, validateDates now opp.contract_start_date opp.contract_end_date
      = .bad msg := by
    rcases h with h | h | ⟨s, e, hs, he, hcase⟩
    · cases hed : opp.contract_end_date.parse with
      | none =>
        exact ⟨"Invalid dates provided for proration calculation",
          by unfold validateDates; rw [h, hed]⟩
      | some e =>
        exact ⟨"Invalid dates provided for proration calculation",
          by unfold validateDates; rw [h, hed]⟩
    · cases hsd : opp.contract_start_date.parse with
      | none =>
        exact ⟨"Invalid dates provided for proration calculation",
          by unfold validateDates; rw [hsd, h]⟩
      | some s =>
        exact ⟨"Invalid dates provided for proration calculation",
          by unfold validateDates; rw [hsd, h]⟩
    · by_cases hse : e.num ≤ s.num
      · exact ⟨"Start date must be before end date for proration",
          by unfold validateDates; rw [hs, he]; simp [hse]⟩
      · refine ⟨"No days remaining for proration", ?_⟩
        unfold validateDates
        rw [hs, he]
        dsimp only
        have hdays : e.num - max s.num now.num ≤ 0 := by
          rcases hcase with hc | hc
          · exact absurd hc hse
          · exact hc
        rw [if_neg hse]
        by_cases hsn : s.num < now.num
        · simp only [if_pos hsn]
          rw [if_pos (by omega : e.num - now.num ≤ 0)]
        · simp only [if_neg hsn]
          rw [if_pos (by omega : e.num - s.num ≤ 0)]
  obtain ⟨msg, hmsg⟩ := hbad
  have hcalc : calculateProration now item opp.contract_start_date opp.contract_end_date
      opp.billing_frequency opp.proration_details
      = { amountInCents := 0, calculationMethod := "invalid_dates", daysCalculated := 0,
          billingFrequency := opp.billing_frequency, notes := [msg] } := by
    unfold calculateProration
    rw [hmsg]
  refine ⟨msg, hcalc, rfl, ?_, ?_⟩
  · simp only [createProrationAction, hcalc]
    norm_num
  · simp only [createProrationAction, hcalc]
    simp

set_option maxRecDepth 4000 in
/-- Claim C5, witness: with the clock at 2024-06-15 and a contract
running 2020-01-01 through 2020-02-01 (ended long before now), the
proration result is the zero-amount `invalid_dates` record and the
generator's `prorate_charges` action carries amount 0. -/
theorem claim5_witness :
    ∃ msg,
      calculateProration now0 defItem c5Opp.contract_start_date c5Opp.contract_end_date
          c5Opp.billing_frequency c5Opp.proration_details
        = { amountInCents := 0, calculationMethod := "invalid_dates", daysCalculated := 0,
            billingFrequency := c5Opp.billing_frequency, notes := [msg] }
      ∧ (createProrationAction now0 defItem c5Opp).atype = .prorate_charges
      ∧ (createProrationAction now0 defItem c5Opp).amount_in_cents = some 0
      ∧ msg ∈ (createProrationAction now0 defItem c5Opp).notes :=
  claim5_invalid_range_is_advisory now0 defItem c5Opp
    (Or.inr (Or.inr ⟨⟨2020, 1, 1⟩, ⟨2020, 2, 1⟩, by with_unfolding_all decide,
      by with_unfolding_all decide, Or.inr (by with_unfolding_all decide)⟩))

/-! ## Claim C7 -/

/-- Claim C7: for an opportunity whose declared order type is none of the
four recognized variants, the dispatcher returns exactly one synthetic
action: type `error`, risk high, review required, details carrying the
stringified raw error and the opportunity id (see `criticalErrorAction`).
Each generator catches all of its exceptions internally, so an escaped
generator exception — the claim's other trigger — cannot occur, and the
dispatcher's catch fires exactly on the unknown-type throw. -/
theorem claim7_unknown_order_type (o : Oracle) (now : CivilDate) (k : Nat)
    (opp : Opportunity) (st : Option RecurlyState)
    (h1 : opp.otype ≠ "new_business") (h2 : opp.otype ≠ "renewal")
    (h3 : opp.otype ≠ "insertion_order") (h4 : opp.otype ≠ "conversion_order") :
    actionFactoryGenerateActions o now k opp st
      = [criticalErrorAction opp ("Error: Unsupported opportunity type: " ++ opp.otype)] := by
  unfold actionFactoryGenerateActions
  rw [if_neg h1, if_neg h2, if_neg h3, if_neg h4]

/-- Claim C7, witness: the unrecognized order type "upsell" yields the
single synthetic error action. -/
theorem claim7_witness :
    actionFactoryGenerateActions oracleAllOk now0 0 c7Opp none
      = [criticalErrorAction c7Opp ("Error: Unsupported opportunity type: " ++ c7Opp.otype)] :=
  claim7_unknown_order_type oracleAllOk now0 0 c7Opp none
    (by with_unfolding_all decide) (by with_unfolding_all decide)
    (by with_unfolding_all decide) (by with_unfolding_all decide)

/-! ## Claim C8 -/

/-- If the per-line-item validation passes, every line item has nonempty
product identifiers and positive price and quantity. -/
theorem lineItemsError_none_sound :
    ∀ {items : List LineItem}, lineItemsError items = none →
      ∀ i ∈ items, i.product_code ≠ "" ∧ i.product_name ≠ ""
        ∧ 0 < i.unit_price ∧ 0 < i.quantity := by
  intro items
  induction items with
  | nil =>
    intro _ i hi
    exact absurd hi (List.not_mem_nil i)
  | cons item rest ih =>
    intro h i hi
    unfold lineItemsError at h
    by_cases hc : item.product_code = "" ∨ item.product_name = ""
    · simp [hc] at h
    · rw [if_neg hc] at h
      by_cases hp : item.unit_price ≤ 0
      · simp [hp] at h
      · rw [if_neg hp] at h
        by_cases hq : item.quantity ≤ 0
        · simp [hq] at h
        · rw [if_neg hq] at h
          rcases List.mem_cons.mp hi with rfl | hi2
          · push_neg at hc
            exact ⟨hc.1, hc.2, lt_of_not_le hp, lt_of_not_le hq⟩
          · exact ih h i hi2

/-- If `validateOpportunity` passes, every structural check it makes in
fact holds: the id, type and account id are nonempty, there is at least
one (well-formed) line item, and the contract dates parse with the start
strictly before the end. -/
theorem validateOpportunity_none_sound {opp : Opportunity}
    (h : validateOpportunity opp = none) :
    opp.id ≠ "" ∧ opp.otype ≠ "" ∧ opp.account_id ≠ ""
    ∧ opp.line_items ≠ []
    ∧ lineItemsError opp.line_items = none
    ∧ ∃ s e, opp.contract_start_date.parse = some s
        ∧ opp.contract_end_date.parse = some e ∧ s.num < e.num := by
  unfold validateOpportunity at h
  by_cases h1 : opp.id = ""
  · simp [h1] at h
  rw [if_neg h1] at h
  by_cases h2 : opp.otype = ""
  · simp [h2] at h
  rw [if_neg h2] at h
  by_cases h3 : opp.account_id = ""
  · simp [h3] at h
  rw [if_neg h3] at h
  by_cases h4 : (opp.contract_start_date.isFalsy || opp.contract_end_date.isFalsy) = true
  · simp [h4] at h
  rw [if_neg h4] at h
  by_cases h5 : opp.line_items.isEmpty = true
  · simp [h5] at h
  rw [if_neg h5] at h
  have hne : opp.line_items ≠ [] := by
    intro hnil
    exact h5 (by simp [hnil])
  cases h6 : lineItemsError opp.line_items with
  | some e =>
    rw [h6] at h
    exact absurd h (by simp)
  | none =>
    rw [h6] at h
    cases h7 : opp.contract_start_date.parse with
    | none =>
      rw [h7] at h
      cases h8 : opp.contract_end_date.parse with
      | none => rw [h8] at h; exact absurd h (by simp)
      | some e => rw [h8] at h; exact absurd h (by simp)
    | some s =>
      rw [h7] at h
      cases h8 : opp.contract_end_date.parse with
      | none => rw [h8] at h; exact absurd h (by simp)
      | some e =>
        rw [h8] at h
        by_cases h9 : e.num ≤ s.num
        · simp [h9] at h
        · exact ⟨h1, h2, h3, hne, rfl, s, e, rfl, rfl, lt_of_not_le h9⟩

/-- Claim C8: an opportunity failing any structural validation check —
missing id, type or account id, no line items, a line item with empty
product identifiers or non-positive price or quantity, a missing or
unparsable contract date, or a start date not strictly before the end
date — makes the orchestrator return exactly the one high-risk
error-typed action built from the validation message; the generator
dispatch is never reached. -/
theorem claim8_validation_short_circuit (o : Oracle) (now : CivilDate)
    (opp : Opportunity) (st : Option RecurlyState)
    (h : opp.id = "" ∨ opp.otype = "" ∨ opp.account_id = ""
      ∨ opp.line_items = []
      ∨ (∃ i ∈ opp.line_items, i.product_code = "" ∨ i.product_name = ""
          ∨ i.unit_price ≤ 0 ∨ i.quantity ≤ 0)
      ∨ opp.contract_start_date.parse = none
      ∨ opp.contract_end_date.parse = none
      ∨ (∃ s e, opp.contract_start_date.parse = some s
          ∧ opp.contract_end_date.parse = some e ∧ e.num ≤ s.num)) :
    ∃ msg, validateOpportunity opp = some msg
      ∧ billingEngineGenerateActions o now opp st
        = [criticalErrorAction opp ("Error: " ++ msg)] := by
  cases hv : validateOpportunity opp with
  | some msg =>
    refine ⟨msg, rfl, ?_⟩
    unfold billingEngineGenerateActions
    rw [hv]
  | none =>
    exfalso
    obtain ⟨g1, g2, g3, g4, g5, s, e, hs, he, hlt⟩ := validateOpportunity_none_sound hv
    have hgood := lineItemsError_none_sound g5
    rcases h with h | h | h | h | ⟨i, hi, hbad⟩ | h | h | ⟨s2, e2, hs2, he2, hle⟩
    · exact g1 h
    · exact g2 h
    · exact g3 h
    · exact g4 h
    · obtain ⟨c1, c2, c3, c4⟩ := hgood i hi
      rcases hbad with hb | hb | hb | hb
      · exact c1 hb
      · exact c2 hb
      · exact absurd hb (not_le.mpr c3)
      · exact absurd hb (not_le.mpr c4)
    · rw [h] at hs; exact Option.noConfusion hs
    · rw [h] at he; exact Option.noConfusion he
    · rw [hs] at hs2
      rw [he] at he2
      injection hs2 with hs3
      injection he2 with he3
      subst hs3
      subst he3
      omega

/-- Claim C8, witness: an opportunity whose only line item has unit
price 0 fails validation and the orchestrator returns the single
critical error action. -/
theorem claim8_witness :
    ∃ msg, validateOpportunity c8Opp = some msg
      ∧ billingEngineGenerateActions oracleAllOk now0 c8Opp none
        = [criticalErrorAction c8Opp ("Error: " ++ msg)] :=
  claim8_validation_short_circuit oracleAllOk now0 c8Opp none
    (Or.inr (Or.inr (Or.inr (Or.inr (Or.inl (by with_unfolding_all decide))))))

/-! ## Claim C9: review-invariant machinery -/

theorem reviewInv_nil : ReviewInv [] := by
  intro a ha
  exact absurd ha (List.not_mem_nil a)

theorem reviewInv_cons {a : BillingAction} {l : List BillingAction}
    (ha : a.risk_level = .high → a.requires_review = true) (hl : ReviewInv l) :
    ReviewInv (a :: l) := by
  intro b hb
  rcases List.mem_cons.mp hb with rfl | hb2
  · exact ha
  · exact hl b hb2

theorem reviewInv_append {l₁ l₂ : List BillingAction}
    (h₁ : ReviewInv l₁) (h₂ : ReviewInv l₂) : ReviewInv (l₁ ++ l₂) := by
  intro a ha
  rcases List.mem_append.mp ha with h | h
  · exact h₁ a h
  · exact h₂ a h

theorem reviewInv_singleton {a : BillingAction}
    (ha : a.risk_level = .high → a.requires_review = true) : ReviewInv [a] :=
  reviewInv_cons ha reviewInv_nil

/-- An action whose review flag is true satisfies the invariant. -/
theorem inv_of_review {a : BillingAction} (h : a.requires_review = true) :
    a.risk_level = .high → a.requires_review = true := fun _ => h

/-- An action whose risk level is not high satisfies the invariant. -/
theorem inv_of_not_high {a : BillingAction} (h : ¬a.risk_level = .high) :
    a.risk_level = .high → a.requires_review = true := fun hh => absurd hh h

/-- A high-tier one-time charge (total above $5,000) is necessarily
above the $1,000 review threshold. -/
theorem nbChargeAction_inv (item : LineItem) (opp : Opportunity) :
    (nbChargeAction item opp).risk_level = .high →
      (nbChargeAction item opp).requires_review = true := by
  intro h
  have h5 : 5000 < item.total_price := calculateRiskLevel_eq_high h
  show decide (1000 < item.total_price) = true
  exact decide_eq_true (by linarith)

/-- Same as `nbChargeAction_inv` for the insertion-order variant. -/
theorem insChargeAction_inv (item : LineItem) (opp : Opportunity) :
    (insChargeAction item opp).risk_level = .high →
      (insChargeAction item opp).requires_review = true := by
  intro h
  have h5 : 5000 < item.total_price := calculateRiskLevel_eq_high h
  show decide (1000 < item.total_price) = true
  exact decide_eq_true (by linarith)

/-- A high-tier renewal update (absolute dollar delta above $5,000) is
necessarily above the review threshold of 100. -/
theorem updateExistingSubscriptionAction_inv (item : LineItem)
    (sub : RecurlySubscription) (opp : Opportunity) (resp : SubResponse) :
    (updateExistingSubscriptionAction item sub opp resp).risk_level = .high →
      (updateExistingSubscriptionAction item sub opp resp).requires_review = true := by
  intro h
  have h5 : 5000 < |item.unit_price - sub.unit_amount_in_cents / 100| :=
    calculateRiskLevel_eq_high h
  show decide (100 < |item.unit_price - sub.unit_amount_in_cents / 100|) = true
  exact decide_eq_true (by linarith)

theorem rollbackCancelAction_review (ok : Bool) (d1 d2 n : String) (sub : SubResponse) :
    (rollbackCancelAction ok d1 d2 n sub).requires_review = true := by
  unfold rollbackCancelAction
  split <;> rfl

theorem rollbackCancelList_inv (o : Oracle) (d1 d2 n : String) :
    ∀ (subs : List SubResponse) (k : Nat),
      ReviewInv (rollbackCancelList o d1 d2 n subs k).2 := by
  intro subs
  induction subs with
  | nil => intro k; exact reviewInv_nil
  | cons s rest ih =>
    intro k
    exact reviewInv_cons
      (inv_of_review (rollbackCancelAction_review (o k) d1 d2 n s)) (ih (k + 1))

theorem nbRollback_inv (o : Oracle) (k : Nat) (subs : List SubResponse) (hc : Bool) :
    ReviewInv (nbRollback o k subs hc).2 := by
  unfold nbRollback
  dsimp only
  refine reviewInv_append (rollbackCancelList_inv o _ _ _ subs k) ?_
  split
  · exact reviewInv_singleton (inv_of_review rfl)
  · exact reviewInv_nil

theorem nbLoop_inv (o : Oracle) (opp : Opportunity) :
    ∀ (items : List LineItem) (k : Nat) (subs : List SubResponse) (hc : Bool),
      ReviewInv (nbLoop o opp items k subs hc).actions := by
  intro items
  induction items with
  | nil => intro k subs hc; exact reviewInv_nil
  | cons item rest ih =>
    intro k subs hc
    unfold nbLoop
    dsimp only
    split
    · exact reviewInv_cons (nbChargeAction_inv item opp) (ih k subs true)
    · split
      · exact reviewInv_cons (inv_of_not_high (by simp [nbSubscriptionAction])) (ih (k + 1) _ hc)
      · exact nbRollback_inv o (k + 1) subs hc

theorem newBusinessGenerateActions_inv (o : Oracle) (k0 : Nat) (opp : Opportunity) :
    ReviewInv (newBusinessGenerateActions o k0 opp) := by
  unfold newBusinessGenerateActions
  split
  · dsimp only
    split
    · refine reviewInv_cons (inv_of_not_high (by simp [nbAccountAction])) ?_
      refine reviewInv_append (reviewInv_append (nbLoop_inv o opp _ _ _ _) ?_) ?_
      · exact nbRollback_inv o _ _ _
      · exact reviewInv_cons (inv_of_review rfl) (reviewInv_singleton (inv_of_review rfl))
    · exact reviewInv_cons (inv_of_not_high (by simp [nbAccountAction])) (nbLoop_inv o opp _ _ _ _)
  · exact reviewInv_singleton (inv_of_review rfl)

theorem renewalRestoreAction_review (ok : Bool) (sub : SubResponse) :
    (renewalRestoreAction ok sub).requires_review = true := by
  unfold renewalRestoreAction
  split <;> rfl

theorem renewalRestoreList_inv (o : Oracle) :
    ∀ (upd : List (SubResponse × OriginalSub)) (k : Nat),
      ReviewInv (renewalRestoreList o upd k).2 := by
  intro upd
  induction upd with
  | nil => intro k; exact reviewInv_nil
  | cons p rest ih =>
    intro k
    exact reviewInv_cons
      (inv_of_review (renewalRestoreAction_review (o k) p.1)) (ih (k + 1))

theorem renewalRollback_inv (o : Oracle) (k : Nat)
    (upd : List (SubResponse × OriginalSub)) (cre : List SubResponse) :
    ReviewInv (renewalRollback o k upd cre).2 := by
  unfold renewalRollback
  dsimp only
  exact reviewInv_append (renewalRestoreList_inv o upd k)
    (rollbackCancelList_inv o _ _ _ cre _)

theorem renewalLoop_inv (o : Oracle) (opp : Opportunity) (st : RecurlyState) :
    ∀ (items : List LineItem) (k : Nat) (upd : List (SubResponse × OriginalSub))
      (cre : List SubResponse),
      ReviewInv (renewalLoop o opp st items k upd cre).actions := by
  intro items
  induction items with
  | nil => intro k upd cre; exact reviewInv_nil
  | cons item rest ih =>
    intro k upd cre
    unfold renewalLoop
    dsimp only
    split
    · split
      · exact reviewInv_cons (updateExistingSubscriptionAction_inv item _ opp _)
          (ih (k + 1) _ cre)
      · exact reviewInv_nil
    · split
      · exact reviewInv_cons (inv_of_review rfl) (ih (k + 1) upd _)
      · exact reviewInv_nil

theorem renewalGenerateActions_inv (o : Oracle) (k0 : Nat) (opp : Opportunity)
    (st : Option RecurlyState) :
    ReviewInv (renewalGenerateActions o k0 opp st) := by
  unfold renewalGenerateActions
  cases st with
  | none => exact reviewInv_singleton (inv_of_review rfl)
  | some state =>
    dsimp only
    split
    · refine reviewInv_append (reviewInv_append
        (renewalLoop_inv o opp state _ _ _ _) (renewalRollback_inv o _ _ _)) ?_
      exact reviewInv_singleton (inv_of_review rfl)
    · exact renewalLoop_inv o opp state _ _ _ _

theorem insRollback_inv (o : Oracle) (k : Nat) (subs : List SubResponse) (hc : Bool) :
    ReviewInv (insRollback o k subs hc).2 := by
  unfold insRollback
  dsimp only
  refine reviewInv_append (rollbackCancelList_inv o _ _ _ subs k) ?_
  split
  · exact reviewInv_singleton (inv_of_review rfl)
  · exact reviewInv_nil

theorem insLoop_inv (o : Oracle) (now : CivilDate) (opp : Opportunity) (hi : Bool) :
    ∀ (items : List LineItem) (k : Nat) (subs : List SubResponse) (hc : Bool),
      ReviewInv (insLoop o now opp hi items k subs hc).actions := by
  intro items
  induction items with
  | nil => intro k subs hc; exact reviewInv_nil
  | cons item rest ih =>
    intro k subs hc
    unfold insLoop
    dsimp only
    split
    · exact reviewInv_cons (insChargeAction_inv item opp) (ih k subs true)
    · split
      · exact reviewInv_cons (inv_of_review rfl) (ih k subs true)
      · split
        · exact reviewInv_cons (inv_of_not_high (by simp [insSubscriptionAction]))
            (ih (k + 1) _ hc)
        · exact insRollback_inv o (k + 1) subs _

theorem insertionOrderGenerateActions_inv (o : Oracle) (now : CivilDate) (k0 : Nat)
    (opp : Opportunity) (st : Option RecurlyState) :
    ReviewInv (insertionOrderGenerateActions o now k0 opp st) := by
  unfold insertionOrderGenerateActions
  cases st with
  | none => exact reviewInv_singleton (inv_of_review rfl)
  | some state =>
    dsimp only
    have hinv : ReviewInv (match opp.outstanding_invoices with
        | some oi => if oi.has_outstanding then [outstandingInvoiceAction oi] else []
        | none => []) := by
      split
      · split
        · exact reviewInv_singleton (inv_of_review rfl)
        · exact reviewInv_nil
      · exact reviewInv_nil
    split
    · refine reviewInv_append (reviewInv_append (reviewInv_append hinv
        (insLoop_inv o now opp _ _ _ _ _)) (insRollback_inv o _ _ _)) ?_
      exact reviewInv_singleton (inv_of_review rfl)
    · exact reviewInv_append hinv (insLoop_inv o now opp _ _ _ _ _)

theorem convRollback_inv (o : Oracle) (k : Nat) (created : List SubResponse) (hc : Bool) :
    ReviewInv (convRollback o k created hc).2 := by
  unfold convRollback
  dsimp only
  refine reviewInv_append (rollbackCancelList_inv o _ _ _ created k) ?_
  split
  · exact reviewInv_singleton (inv_of_review rfl)
  · exact reviewInv_nil

theorem convCancelLoop_inv (o : Oracle) :
    ∀ (subs : List RecurlySubscription) (k : Nat),
      ReviewInv (convCancelLoop o subs k).actions := by
  intro subs
  induction subs with
  | nil => intro k; exact reviewInv_nil
  | cons sub rest ih =>
    intro k
    unfold convCancelLoop
    dsimp only
    split
    · split
      · exact reviewInv_cons (inv_of_not_high (by simp [convCancelAction])) (ih (k + 1))
      · exact reviewInv_nil
    · exact ih k

theorem convCreateLoop_inv (o : Oracle) (opp : Opportunity) :
    ∀ (items : List LineItem) (k : Nat),
      ReviewInv (convCreateLoop o opp items k).actions := by
  intro items
  induction items with
  | nil => intro k; exact reviewInv_nil
  | cons item rest ih =>
    intro k
    unfold convCreateLoop
    dsimp only
    split
    · exact reviewInv_cons (inv_of_not_high (by simp [convSubscriptionAction])) (ih (k + 1))
    · exact reviewInv_nil

theorem conversionGenerateActions_inv (o : Oracle) (k0 : Nat) (opp : Opportunity)
    (st : Option RecurlyState) :
    ReviewInv (conversionGenerateActions o k0 opp st) := by
  unfold conversionGenerateActions
  cases st with
  | none => exact reviewInv_singleton (inv_of_review rfl)
  | some state =>
    dsimp only
    have hcred : ReviewInv (match opp.billing_transition with
        | some bt =>
          match bt.credit_amount_due with
          | some amt => if amt = 0 then [] else [convCreditAction bt]
          | none => []
        | none => []) := by
      split
      · split
        · split
          · exact reviewInv_nil
          · exact reviewInv_singleton (inv_of_not_high (by simp [convCreditAction]))
        · exact reviewInv_nil
      · exact reviewInv_nil
    split
    · refine reviewInv_append (reviewInv_append
        (convCancelLoop_inv o _ _) (convRollback_inv o _ _ _)) ?_
      exact reviewInv_singleton (inv_of_review rfl)
    · split
      · refine reviewInv_append (reviewInv_append (reviewInv_append (reviewInv_append
          (convCancelLoop_inv o _ _) hcred) (convCreateLoop_inv o opp _ _))
          (convRollback_inv o _ _ _)) ?_
        exact reviewInv_singleton (inv_of_review rfl)
      · exact reviewInv_append (reviewInv_append
          (convCancelLoop_inv o _ _) hcred) (convCreateLoop_inv o opp _ _)

theorem actionFactoryGenerateActions_inv (o : Oracle) (now : CivilDate) (k0 : Nat)
    (opp : Opportunity) (st : Option RecurlyState) :
    ReviewInv (actionFactoryGenerateActions o now k0 opp st) := by
  unfold actionFactoryGenerateActions
  split
  · exact newBusinessGenerateActions_inv o k0 opp
  · split
    · exact renewalGenerateActions_inv o k0 opp st
    · split
      · exact insertionOrderGenerateActions_inv o now k0 opp st
      · split
        · exact conversionGenerateActions_inv o k0 opp st
        · exact reviewInv_singleton (inv_of_review rfl)

theorem billingEngineGenerateActions_inv (o : Oracle) (now : CivilDate)
    (opp : Opportunity) (st : Option RecurlyState) :
    ReviewInv (billingEngineGenerateActions o now opp st) := by
  unfold billingEngineGenerateActions
  split
  · exact reviewInv_singleton (inv_of_review rfl)
  · dsimp only
    split
    · exact reviewInv_cons (inv_of_review rfl)
        (actionFactoryGenerateActions_inv o now 0 opp st)
    · exact actionFactoryGenerateActions_inv o now 0 opp st

/-- Claim C9: every billing action emitted by any of the four
generators, by the dispatcher, or by the orchestrator satisfies the
invariant: a high risk level implies the review flag is set. -/
theorem claim9_high_risk_requires_review (o : Oracle) (now : CivilDate) (k : Nat)
    (opp : Opportunity) (st : Option RecurlyState) (a : BillingAction)
    (hmem : a ∈ newBusinessGenerateActions o k opp
      ∨ a ∈ renewalGenerateActions o k opp st
      ∨ a ∈ insertionOrderGenerateActions o now k opp st
      ∨ a ∈ conversionGenerateActions o k opp st
      ∨ a ∈ actionFactoryGenerateActions o now k opp st
      ∨ a ∈ billingEngineGenerateActions o now opp st)
    (hhigh : a.risk_level = .high) : a.requires_review = true := by
  rcases hmem with h | h | h | h | h | h
  · exact newBusinessGenerateActions_inv o k opp a h hhigh
  · exact renewalGenerateActions_inv o k opp st a h hhigh
  · exact insertionOrderGenerateActions_inv o now k opp st a h hhigh
  · exact conversionGenerateActions_inv o k opp st a h hhigh
  · exact actionFactoryGenerateActions_inv o now k opp st a h hhigh
  · exact billingEngineGenerateActions_inv o now opp st a h hhigh

set_option maxRecDepth 4000 in
/-- Claim C9, witness: the high-risk missing-state action of the renewal
generator is emitted with its review flag set. -/
theorem claim9_witness :
    (missingStateAction "Renewal opportunity but no existing Recurly account found"
        "Manual intervention required - account should exist for renewal")
      ∈ renewalGenerateActions oracleAllOk 0 defOpp none
    ∧ (missingStateAction "Renewal opportunity but no existing Recurly account found"
        "Manual intervention required - account should exist for renewal").risk_level = .high
    ∧ (missingStateAction "Renewal opportunity but no existing Recurly account found"
        "Manual intervention required - account should exist for renewal").requires_review
      = true :=
  ⟨by with_unfolding_all decide, rfl,
    claim9_high_risk_requires_review oracleAllOk now0 0 defOpp none _
      (Or.inr (Or.inl (by with_unfolding_all decide))) rfl⟩

/-! ## Claim C10: every orchestrator path emits at least one action -/

theorem newBusinessGenerateActions_ne_nil (o : Oracle) (k0 : Nat) (opp : Opportunity) :
    newBusinessGenerateActions o k0 opp ≠ [] := by
  unfold newBusinessGenerateActions
  split
  · dsimp only
    split <;> simp
  · simp

/-- Processing a first renewal line item either fails (triggering the
terminal error action downstream) or emits at least one action. -/
theorem renewalLoop_cons_cases (o : Oracle) (opp : Opportunity) (st : RecurlyState)
    (item : LineItem) (rest : List LineItem) (k : Nat)
    (upd : List (SubResponse × OriginalSub)) (cre : List SubResponse) :
    (renewalLoop o opp st (item :: rest) k upd cre).failed = true
    ∨ (renewalLoop o opp st (item :: rest) k upd cre).actions ≠ [] := by
  unfold renewalLoop
  dsimp only
  split
  · split
    · right; simp
    · left; rfl
  · split
    · right; simp
    · left; rfl

theorem renewalGenerateActions_ne_nil (o : Oracle) (k0 : Nat) (opp : Opportunity)
    (st : Option RecurlyState) (hitems : opp.line_items ≠ []) :
    renewalGenerateActions o k0 opp st ≠ [] := by
  unfold renewalGenerateActions
  cases st with
  | none => simp
  | some state =>
    dsimp only
    obtain ⟨item, rest, hl⟩ : ∃ a l, opp.line_items = a :: l := by
      cases hl : opp.line_items with
      | nil => exact absurd hl hitems
      | cons a l => exact ⟨a, l, rfl⟩
    rw [hl]
    by_cases hf : (renewalLoop o opp state (item :: rest) k0 [] []).failed = true
    · rw [if_pos hf]; simp
    · rw [if_neg hf]
      rcases renewalLoop_cons_cases o opp state item rest k0 [] [] with h | h
      · exact absurd h hf
      · exact h

/-- Processing a first insertion-order line item either fails or emits
at least one action. -/
theorem insLoop_cons_cases (o : Oracle) (now : CivilDate) (opp : Opportunity)
    (hi : Bool) (item : LineItem) (rest : List LineItem) (k : Nat)
    (subs : List SubResponse) (hc : Bool) :
    (insLoop o now opp hi (item :: rest) k subs hc).failed = true
    ∨ (insLoop o now opp hi (item :: rest) k subs hc).actions ≠ [] := by
  unfold insLoop
  dsimp only
  split
  · right; simp
  · split
    · right; simp
    · split
      · right; simp
      · left; rfl

theorem insertionOrderGenerateActions_ne_nil (o : Oracle) (now : CivilDate) (k0 : Nat)
    (opp : Opportunity) (st : Option RecurlyState) (hitems : opp.line_items ≠ []) :
    insertionOrderGenerateActions o now k0 opp st ≠ [] := by
  unfold insertionOrderGenerateActions
  cases st with
  | none => simp
  | some state =>
    dsimp only
    obtain ⟨item, rest, hl⟩ : ∃ a l, opp.line_items = a :: l := by
      cases hl : opp.line_items with
      | nil => exact absurd hl hitems
      | cons a l => exact ⟨a, l, rfl⟩
    rw [hl]
    generalize (match opp.outstanding_invoices with
      | some oi => if oi.has_outstanding then [outstandingInvoiceAction oi] else []
      | none => []) = invoiceActs
    by_cases hf : (insLoop o now opp (!invoiceActs.isEmpty) (item :: rest) k0 [] false).failed
        = true
    · rw [if_pos hf]; simp
    · rw [if_neg hf]
      rcases insLoop_cons_cases o now opp (!invoiceActs.isEmpty) item rest k0 [] false with h | h
      · exact absurd h hf
      · simp [List.append_eq_nil]
        intro _ h2
        exact absurd h2 h

/-- Creating the first enterprise subscription of a conversion either
fails or emits an action. -/
theorem convCreateLoop_cons_cases (o : Oracle) (opp : Opportunity)
    (item : LineItem) (rest : List LineItem) (k : Nat) :
    (convCreateLoop o opp (item :: rest) k).failed = true
    ∨ (convCreateLoop o opp (item :: rest) k).actions ≠ [] := by
  unfold convCreateLoop
  dsimp only
  split
  · right; simp
  · left; rfl

theorem conversionGenerateActions_ne_nil (o : Oracle) (k0 : Nat) (opp : Opportunity)
    (st : Option RecurlyState) (hitems : opp.line_items ≠ []) :
    conversionGenerateActions o k0 opp st ≠ [] := by
  unfold conversionGenerateActions
  cases st with
  | none => simp
  | some state =>
    dsimp only
    obtain ⟨item, rest, hl⟩ : ∃ a l, opp.line_items = a :: l := by
      cases hl : opp.line_items with
      | nil => exact absurd hl hitems
      | cons a l => exact ⟨a, l, rfl⟩
    split
    · simp
    · rw [hl]
      by_cases hf : (convCreateLoop o opp (item :: rest)
          (convCancelLoop o state.subscriptions k0).k).failed = true
      · rw [if_pos hf]; simp
      · rw [if_neg hf]
        rcases convCreateLoop_cons_cases o opp item rest
            (convCancelLoop o state.subscriptions k0).k with h | h
        · exact absurd h hf
        · simp [List.append_eq_nil]
          intro _ _ h3
          exact absurd h3 h

theorem actionFactoryGenerateActions_ne_nil (o : Oracle) (now : CivilDate) (k0 : Nat)
    (opp : Opportunity) (st : Option RecurlyState) (hitems : opp.line_items ≠ []) :
    actionFactoryGenerateActions o now k0 opp st ≠ [] := by
  unfold actionFactoryGenerateActions
  split
  · exact newBusinessGenerateActions_ne_nil o k0 opp
  · split
    · exact renewalGenerateActions_ne_nil o k0 opp st hitems
    · split
      · exact insertionOrderGenerateActions_ne_nil o now k0 opp st hitems
      · split
        · exact conversionGenerateActions_ne_nil o k0 opp st hitems
        · simp

/-- Claim C10: for every opportunity and every existing-state snapshot
(including absent state) and every provider behavior, the orchestrator
returns at least one action — validation failures, dispatcher errors,
missing-state short-circuits and all success paths each emit one or more
actions. -/
theorem claim10_never_empty (o : Oracle) (now : CivilDate) (opp : Opportunity)
    (st : Option RecurlyState) :
    billingEngineGenerateActions o now opp st ≠ [] := by
  unfold billingEngineGenerateActions
  cases hv : validateOpportunity opp with
  | some msg => simp
  | none =>
    dsimp only
    have hitems : opp.line_items ≠ [] :=
      (validateOpportunity_none_sound hv).2.2.2.1
    split
    · simp
    · exact actionFactoryGenerateActions_ne_nil o now 0 opp st hitems

end Dimely
